import Mathlib

/-!
Verification of the caraDemo aggregation core: a shallow embedding of the
provider base class (`src/providers/__init__.py`), the five provider
`detect` implementations, and the fusion / explanation logic of
`DetectionAggregator` (`src/aggregation/service.py`), together with
theorems settling the specification claims.

Python floats are modelled as rationals (`ℚ`); byte strings as `List Nat`;
raised exceptions as the `Except.error` branch of `Except String _`.
-/

set_option autoImplicit false

namespace CaraDemo

/-- Risk tiers, from `RiskLevel` in `src/aggregation/schemas.py`. -/
inductive RiskLevel
  | low
  | medium
  | high
  | critical
deriving DecidableEq, Repr

/-- The ordinal score assigned to each tier by the dictionary
`risk_scores = {"low": 0, "medium": 1, "high": 2, "critical": 3}`
inside `DetectionAggregator._calculate_overall_risk`. -/
def RiskLevel.score : RiskLevel → Nat
  | .low => 0
  | .medium => 1
  | .high => 2
  | .critical => 3

/-- Provider statuses, from `ProviderStatus` in `src/aggregation/schemas.py`. -/
inductive ProviderStatus
  | success
  | error
  | timeout
  | not_configured
deriving DecidableEq, Repr

/-- One celebrity entry of the `metadata["celebrities"]` list built by
`AWSRekognitionProvider.detect`. -/
structure Celebrity where
  name : String
  confidence : ℚ
deriving DecidableEq, Repr

/-- The open `metadata` mapping of a `DetectionResult`, restricted to the
keys the aggregator reads (`metadata.get("risk_factors", [])`,
`metadata.get("celebrities", [])`, `metadata.get("total_faces", 0)`);
each field's default is the `.get` default used in the code. -/
structure Metadata where
  risk_factors : List String := []
  celebrities : List Celebrity := []
  total_faces : Nat := 0
deriving DecidableEq, Repr

/-- Embedding of `DetectionResult` from `src/aggregation/schemas.py`. -/
structure DetectionResult where
  provider : String
  capability : String
  status : ProviderStatus
  confidence : ℚ
  risk_level : RiskLevel
  matches_found : Nat
  processing_time_ms : Nat
  metadata : Metadata
  error_message : Option String
deriving DecidableEq, Repr

/-- Embedding of `BaseDetectionProvider._create_result`, the helper every provider uses
to build a standardized `DetectionResult`. -/
def createResult (providerName capability : String) (status : ProviderStatus)
    (confidence : ℚ) (riskLevel : RiskLevel) (matchesFound : Nat)
    (processingTimeMs : Nat) (metadata : Metadata)
    (errorMessage : Option String) : DetectionResult :=
  { provider := providerName
    capability := capability
    status := status
    confidence := confidence
    risk_level := riskLevel
    matches_found := matchesFound
    processing_time_ms := processingTimeMs
    metadata := metadata
    error_message := errorMessage }

/-- Embedding of `BaseDetectionProvider._determine_risk_level`. -/
def determineRiskLevel (confidence : ℚ) (matchCount : Nat) : RiskLevel :=
  if matchCount = 0 then .low
  else if confidence ≥ 90 ∧ matchCount ≥ 5 then .critical
  else if confidence ≥ 75 ∧ matchCount ≥ 3 then .high
  else if confidence ≥ 50 ∨ matchCount ≥ 1 then .medium
  else .low

/-- The filter `[r for r in results if r.status.value == "success"]` of
`DetectionAggregator._calculate_overall_risk`. -/
def successfulResults (results : List DetectionResult) : List DetectionResult :=
  results.filter (fun r => r.status = .success)

/-- The per-report weight computed in the loop of
`_calculate_overall_risk`: `weight = 1.0`, `+0.5` when
`matches_found > 0`, `+0.3` when `confidence > 80`. -/
def resultWeight (r : DetectionResult) : ℚ :=
  1 + (if r.matches_found > 0 then (1 : ℚ) / 2 else 0)
    + (if r.confidence > 80 then (3 : ℚ) / 10 else 0)

/-- The accumulated `total_confidence` of `_calculate_overall_risk`. -/
def totalConfidence (l : List DetectionResult) : ℚ :=
  (l.map (fun r => r.confidence * resultWeight r)).sum

/-- The accumulated `total_weight` of `_calculate_overall_risk`. -/
def totalWeight (l : List DetectionResult) : ℚ :=
  (l.map resultWeight).sum

/-- The accumulated `max_risk_score` of `_calculate_overall_risk`
(initialized to `0`). -/
def maxRiskScore (l : List DetectionResult) : Nat :=
  l.foldl (fun m r => max m r.risk_level.score) 0

/-- Embedding of `DetectionAggregator._calculate_overall_risk`: returns the pair
`(overall_risk, min(overall_confidence, 100.0))`. -/
def calculateOverallRisk (results : List DetectionResult) : RiskLevel × ℚ :=
  if results = [] then (.low, 0)
  else
    let successes := successfulResults results
    if successes = [] then (.low, 0)
    else
      let tc := totalConfidence successes
      let tw := totalWeight successes
      let m := maxRiskScore successes
      let overallConfidence := if tw > 0 then tc / tw else 0
      let overallRisk : RiskLevel :=
        if m ≥ 3 then .critical
        else if m ≥ 2 then .high
        else if m ≥ 1 then .medium
        else .low
      (overallRisk, min overallConfidence 100)

/-- Helper: the fold computing `max_risk_score` only grows its accumulator. -/
theorem le_foldl_maxScore (l : List DetectionResult) (a : Nat) :
    a ≤ l.foldl (fun m r => max m r.risk_level.score) a := by
  induction l generalizing a with
  | nil => exact Nat.le_refl a
  | cons x xs ih => exact Nat.le_trans (Nat.le_max_left a x.risk_level.score) (ih _)

/-- Helper: the fold computing `max_risk_score` dominates every element. -/
theorem mem_le_foldl_maxScore (l : List DetectionResult) (a : Nat)
    (r : DetectionResult) (hr : r ∈ l) :
    r.risk_level.score ≤ l.foldl (fun m r => max m r.risk_level.score) a := by
  induction l generalizing a with
  | nil => cases hr
  | cons x xs ih =>
    rcases List.mem_cons.mp hr with h | h
    · subst h
      exact Nat.le_trans (Nat.le_max_right a r.risk_level.score) (le_foldl_maxScore xs _)
    · exact ih _ h

/-- Helper: the fold computing `max_risk_score` is either the initial
accumulator or the score of some element. -/
theorem foldl_maxScore_attained (l : List DetectionResult) (a : Nat) :
    l.foldl (fun m r => max m r.risk_level.score) a = a ∨
    ∃ r ∈ l, l.foldl (fun m r => max m r.risk_level.score) a = r.risk_level.score := by
  induction l generalizing a with
  | nil => exact Or.inl rfl
  | cons x xs ih =>
    rcases ih (max a x.risk_level.score) with h | h
    · rcases max_choice a x.risk_level.score with hm | hm
      · exact Or.inl (by simpa [hm] using h)
      · exact Or.inr ⟨x, List.mem_cons_self x xs, by simpa [hm] using h⟩
    · rcases h with ⟨r, hmem, heq⟩
      exact Or.inr ⟨r, List.mem_cons_of_mem x hmem, heq⟩

/-- Helper: every tier score is at most `3`. -/
theorem score_le_three (t : RiskLevel) : t.score ≤ 3 := by
  cases t <;> decide

/-- Helper: `RiskLevel.score` is injective. -/
theorem score_injective (a b : RiskLevel) (h : a.score = b.score) : a = b := by
  cases a <;> cases b <;> first | rfl | exact absurd h (by decide)

/-- Helper: the tier the fusion step rebuilds from `max_risk_score` has
exactly that score whenever the score is at most `3`. -/
theorem ifchain_score (m : Nat) (hm : m ≤ 3) :
    (if m ≥ 3 then RiskLevel.critical
     else if m ≥ 2 then RiskLevel.high
     else if m ≥ 1 then RiskLevel.medium
     else RiskLevel.low).score = m := by
  interval_cases m <;> decide

/-- Helper: with at least one success, `calculateOverallRisk` takes its
final branch; its tier's score is `maxRiskScore` of the successes. -/
theorem overall_tier_score (results : List DetectionResult)
    (h : successfulResults results ≠ []) :
    ((calculateOverallRisk results).1).score = maxRiskScore (successfulResults results) := by
  have hres : results ≠ [] := by
    intro hnil
    exact h (by simp [hnil, successfulResults])
  have hm3 : maxRiskScore (successfulResults results) ≤ 3 := by
    rcases foldl_maxScore_attained (successfulResults results) 0 with hz | ⟨r, _, heq⟩
    · simp [maxRiskScore, hz]
    · simpa [maxRiskScore, heq] using score_le_three r.risk_level
  unfold calculateOverallRisk
  simp only [hres, if_false, h, if_neg (by simpa using hres), if_neg h]
  exact ifchain_score _ hm3

/-- CLAIM C2: when at least one report has `status=success`, the fused
risk tier is attained by some successful report and dominates every
successful report's tier under the ordinal order low<medium<high<critical:
it is exactly the maximum successful tier, never lower. -/
theorem fusion_tier_is_max_success_tier (results : List DetectionResult)
    (h : successfulResults results ≠ []) :
    (∃ r ∈ successfulResults results,
        (calculateOverallRisk results).1 = r.risk_level) ∧
    (∀ r ∈ successfulResults results,
        r.risk_level.score ≤ ((calculateOverallRisk results).1).score) := by
  have hts := overall_tier_score results h
  constructor
  · rcases foldl_maxScore_attained (successfulResults results) 0 with hz | ⟨r, hmem, heq⟩
    · rcases List.exists_mem_of_ne_nil _ h with ⟨r0, hr0⟩
      have hr0le : r0.risk_level.score ≤ 0 := by
        have := mem_le_foldl_maxScore (successfulResults results) 0 r0 hr0
        simpa [maxRiskScore, hz] using this
      refine ⟨r0, hr0, score_injective _ _ ?_⟩
      rw [hts]
      simp only [maxRiskScore, hz]
      exact (Nat.le_zero.mp hr0le).symm
    · refine ⟨r, hmem, score_injective _ _ ?_⟩
      rw [hts]
      simpa [maxRiskScore] using heq
  · intro r hmem
    rw [hts]
    exact mem_le_foldl_maxScore _ 0 r hmem

/-- Witness for C2 at a concrete input: a `medium` success and a `high`
success fuse to tier `high`, which is attained and dominates both. -/
theorem fusion_tier_is_max_success_tier_witness :
    (∃ r ∈ successfulResults
        [createResult "Google_Vision" "image_analysis" .success 55 .medium 1 0 {} none,
         createResult "AWS_Rekognition" "face_detection" .success 80 .high 3 0 {} none],
        (calculateOverallRisk
          [createResult "Google_Vision" "image_analysis" .success 55 .medium 1 0 {} none,
           createResult "AWS_Rekognition" "face_detection" .success 80 .high 3 0 {} none]).1
          = r.risk_level) ∧
    (∀ r ∈ successfulResults
        [createResult "Google_Vision" "image_analysis" .success 55 .medium 1 0 {} none,
         createResult "AWS_Rekognition" "face_detection" .success 80 .high 3 0 {} none],
        r.risk_level.score ≤
          ((calculateOverallRisk
            [createResult "Google_Vision" "image_analysis" .success 55 .medium 1 0 {} none,
             createResult "AWS_Rekognition" "face_detection" .success 80 .high 3 0 {} none]).1).score) :=
  fusion_tier_is_max_success_tier _ (by decide)

/-- CLAIM C4: every list of reports containing no `success` report
(including the empty list) fuses to risk tier `low` with overall
confidence `0.0`. -/
theorem fusion_no_success_yields_low_zero (results : List DetectionResult)
    (h : ∀ r ∈ results, r.status ≠ .success) :
    calculateOverallRisk results = (.low, 0) := by
  have hsucc : successfulResults results = [] := by
    simp only [successfulResults, List.filter_eq_nil_iff]
    intro r hr
    simpa using h r hr
  unfold calculateOverallRisk
  rcases eq_or_ne results [] with hnil | hnil
  · simp [hnil]
  · simp [hnil, hsucc]

/-- Modelled from the spec's words, as the refinement target for C3: the
weight rule "1.0, plus 0.5 if match_count>0, plus 0.3 if confidence>80". -/
def specWeight (r : DetectionResult) : ℚ :=
  1 + (if r.matches_found > 0 then (1 : ℚ) / 2 else 0)
    + (if r.confidence > 80 then (3 : ℚ) / 10 else 0)

/-- Modelled from the spec's words, as the refinement target for C3:
overall confidence = (Σ confidence_i × weight_i) / (Σ weight_i) over the
successful reports. -/
def specOverallConfidence (l : List DetectionResult) : ℚ :=
  (l.map (fun r => r.confidence * specWeight r)).sum / (l.map specWeight).sum

/-- Helper: every per-report weight is at least `1`. -/
theorem one_le_resultWeight (r : DetectionResult) : 1 ≤ resultWeight r := by
  unfold resultWeight
  split_ifs <;> norm_num

/-- Helper: the accumulated weight of a non-empty list is positive. -/
theorem totalWeight_pos (l : List DetectionResult) (h : l ≠ []) :
    0 < totalWeight l := by
  cases l with
  | nil => exact absurd rfl h
  | cons x xs =>
    have hx := one_le_resultWeight x
    have hxs : 0 ≤ (xs.map resultWeight).sum := by
      apply List.sum_nonneg
      intro a ha
      rcases List.mem_map.mp ha with ⟨r, _, rfl⟩
      linarith [one_le_resultWeight r]
    unfold totalWeight
    simp only [List.map_cons, List.sum_cons]
    linarith

/-- Helper: the accumulated weight is never negative. -/
theorem totalWeight_nonneg (l : List DetectionResult) : 0 ≤ totalWeight l := by
  apply List.sum_nonneg
  intro a ha
  rcases List.mem_map.mp ha with ⟨r, _, rfl⟩
  linarith [one_le_resultWeight r]

/-- Helper: with every confidence at most 100, the accumulated weighted
confidence is at most `100 ·` the accumulated weight. -/
theorem totalConfidence_le (l : List DetectionResult)
    (h : ∀ r ∈ l, r.confidence ≤ 100) :
    totalConfidence l ≤ 100 * totalWeight l := by
  unfold totalConfidence totalWeight
  rw [← List.sum_map_mul_left]
  apply List.sum_le_sum
  intro r hr
  have hw : (0 : ℚ) ≤ resultWeight r := by linarith [one_le_resultWeight r]
  exact mul_le_mul_of_nonneg_right (h r hr) hw

/-- Helper: with every confidence non-negative, the accumulated weighted
confidence is non-negative. -/
theorem totalConfidence_nonneg (l : List DetectionResult)
    (h : ∀ r ∈ l, 0 ≤ r.confidence) :
    0 ≤ totalConfidence l := by
  apply List.sum_nonneg
  intro a ha
  rcases List.mem_map.mp ha with ⟨r, hr, rfl⟩
  have hw : (0 : ℚ) ≤ resultWeight r := by linarith [one_le_resultWeight r]
  exact mul_nonneg (h r hr) hw

/-- CLAIM C3: the fusion weight of each successful report is
`1.0 + 0.5·[match_count>0] + 0.3·[confidence>80]`, and — whenever the
successful confidences respect the data model's 0–100 range — the fused
confidence equals the spec's weighted average
`(Σ confidence_i × weight_i) / (Σ weight_i)` over the successful reports. -/
theorem fusion_confidence_is_weighted_average (results : List DetectionResult)
    (h : ∀ r ∈ successfulResults results, r.confidence ≤ 100) :
    (∀ r : DetectionResult, resultWeight r = specWeight r) ∧
    (calculateOverallRisk results).2 = specOverallConfidence (successfulResults results) := by
  refine ⟨fun r => rfl, ?_⟩
  have hspec : specOverallConfidence (successfulResults results)
      = totalConfidence (successfulResults results) / totalWeight (successfulResults results) := rfl
  rcases eq_or_ne results [] with hnil | hnil
  · subst hnil
    simp [calculateOverallRisk, successfulResults, specOverallConfidence]
  · rcases eq_or_ne (successfulResults results) [] with hs | hs
    · simp [calculateOverallRisk, hnil, hs, specOverallConfidence]
    · have htw := totalWeight_pos _ hs
      have htc := totalConfidence_le _ h
      have hle : totalConfidence (successfulResults results)
          / totalWeight (successfulResults results) ≤ 100 := by
        rw [div_le_iff₀ htw]
        linarith
      unfold calculateOverallRisk
      simp only [hnil, if_false, hs, if_neg hnil, if_neg hs, if_pos htw]
      rw [hspec]
      exact min_eq_left hle

/-- Witness for C3 at the spec's own instance: one successful report with
confidence 90 and zero matches has weight 1.3 and fuses to overall
confidence 90. -/
theorem fusion_confidence_is_weighted_average_witness :
    resultWeight (createResult "Google_Vision" "image_analysis" .success 90 .low 0 0 {} none)
      = 13 / 10 ∧
    (calculateOverallRisk
      [createResult "Google_Vision" "image_analysis" .success 90 .low 0 0 {} none]).2 = 90 := by
  constructor
  · norm_num [resultWeight, createResult]
  · rw [(fusion_confidence_is_weighted_average
      [createResult "Google_Vision" "image_analysis" .success 90 .low 0 0 {} none]
      (by intro r hr; fin_cases hr; norm_num [createResult])).2]
    norm_num [specOverallConfidence, specWeight, successfulResults, createResult]

/-- CLAIM C9: whenever every report's confidence respects the data model's
0–100 range, the fused overall confidence lies in the closed interval
[0, 100]. -/
theorem fusion_confidence_in_range (results : List DetectionResult)
    (h : ∀ r ∈ results, 0 ≤ r.confidence ∧ r.confidence ≤ 100) :
    0 ≤ (calculateOverallRisk results).2 ∧ (calculateOverallRisk results).2 ≤ 100 := by
  have hsub : ∀ r ∈ successfulResults results, 0 ≤ r.confidence := by
    intro r hr
    exact (h r (List.mem_of_mem_filter hr)).1
  rcases eq_or_ne results [] with hnil | hnil
  · subst hnil
    simp [calculateOverallRisk]
  · rcases eq_or_ne (successfulResults results) [] with hs | hs
    · simp [calculateOverallRisk, hnil, hs]
    · have htw := totalWeight_pos _ hs
      have htc := totalConfidence_nonneg _ hsub
      unfold calculateOverallRisk
      simp only [hnil, if_false, hs, if_neg hnil, if_neg hs, if_pos htw]
      constructor
      · exact le_min (div_nonneg htc (le_of_lt htw)) (by norm_num)
      · exact min_le_right _ _

/-- Witness for C9 at a concrete input: a single success at confidence 95
fuses to an overall confidence within [0, 100]. -/
theorem fusion_confidence_in_range_witness :
    0 ≤ (calculateOverallRisk
          [createResult "AWS_Rekognition" "face_detection" .success 95 .critical 6 0 {} none]).2 ∧
    (calculateOverallRisk
          [createResult "AWS_Rekognition" "face_detection" .success 95 .critical 6 0 {} none]).2 ≤ 100 :=
  fusion_confidence_in_range _
    (by intro r hr; fin_cases hr; constructor <;> norm_num [createResult])

/-- Witness for C4 at a concrete input: an `error` report and a
`not_configured` report fuse to `(low, 0)`. -/
theorem fusion_no_success_yields_low_zero_witness :
    calculateOverallRisk
      [createResult "TinEye" "tineye" .error 0 .low 0 5 {} (some "boom"),
       createResult "ACRCloud" "acrcloud" .not_configured 0 .low 0 0 {} none]
      = (.low, 0) :=
  fusion_no_success_yields_low_zero _ (by decide)

/-- The argument triple `(file_content, file_type, filename)` that every
`detect` and `safe_detect` receives. -/
structure DetectInput where
  file_content : List Nat
  file_type : String
  filename : String
deriving DecidableEq, Repr

/-- A provider as `safe_detect` sees it: its `provider_name`, the boolean
outcome of `check_configuration()`, and the `detect` body. A raised
exception is the `Except.error` branch, carrying `str(e)`. -/
structure Provider where
  provider_name : String
  check_configuration : Bool
  detect : DetectInput → Except String DetectionResult

/-- Python's `str.lower()` on the ASCII provider names used by
`safe_detect` for the `capability` field of wrapper-built reports. -/
def pyLower (s : String) : String :=
  String.mk (s.data.map Char.toLower)

/-- Python's `str.startswith`, used by every provider to gate on the
declared content type. -/
def pyStartsWith (s pre : String) : Bool :=
  pre.data.isPrefixOf s.data

/-- Embedding of `BaseDetectionProvider.safe_detect`. `elapsedMs` models the wall-clock
duration `int((time.time() - start_time) * 1000)` observed by the
wrapper; it is stamped onto the report on both the success and the
exception path. -/
def safeDetect (p : Provider) (input : DetectInput) (elapsedMs : Nat) : DetectionResult :=
  if p.check_configuration = false then
    createResult p.provider_name (pyLower p.provider_name) .not_configured 0 .low 0 0 {}
      (some (p.provider_name ++ " is not configured"))
  else
    match p.detect input with
    | .ok r => { r with processing_time_ms := elapsedMs }
    | .error e =>
        createResult p.provider_name (pyLower p.provider_name) .error 0 .low 0 elapsedMs {}
          (some e)

/-- CLAIM C1: when a configured provider's `detect` raises, `safe_detect`
absorbs the exception and returns an `error` report whose message is the
exception's description; since `safeDetect` is a total function into
`DetectionResult`, no exception ever reaches its caller. -/
theorem safe_detect_absorbs_exceptions (p : Provider) (input : DetectInput)
    (t : Nat) (e : String) (hc : p.check_configuration = true)
    (hd : p.detect input = .error e) :
    (safeDetect p input t).status = .error ∧
    (safeDetect p input t).error_message = some e := by
  unfold safeDetect
  rw [hc]
  simp [hd, createResult]

/-- Witness for C1 at a concrete input: a configured provider raising
"connection refused" yields an `error` report carrying that message. -/
theorem safe_detect_absorbs_exceptions_witness :
    (safeDetect
        { provider_name := "TinEye", check_configuration := true,
          detect := fun _ => .error "connection refused" }
        { file_content := [1, 2, 3], file_type := "image/png", filename := "a.png" }
        7).status = .error ∧
    (safeDetect
        { provider_name := "TinEye", check_configuration := true,
          detect := fun _ => .error "connection refused" }
        { file_content := [1, 2, 3], file_type := "image/png", filename := "a.png" }
        7).error_message = some "connection refused" :=
  safe_detect_absorbs_exceptions _ _ 7 "connection refused" rfl rfl

/-- CLAIM C5: an unconfigured provider short-circuits to a
`not_configured` report with zero confidence and zero matches, and the
report is independent of the `detect` body, of the input, and of the
elapsed time — the provider's `detect` is never invoked. -/
theorem not_configured_short_circuits (name : String)
    (d d' : DetectInput → Except String DetectionResult)
    (input input' : DetectInput) (t t' : Nat) :
    (safeDetect { provider_name := name, check_configuration := false, detect := d }
        input t).status = .not_configured ∧
    (safeDetect { provider_name := name, check_configuration := false, detect := d }
        input t).confidence = 0 ∧
    (safeDetect { provider_name := name, check_configuration := false, detect := d }
        input t).matches_found = 0 ∧
    safeDetect { provider_name := name, check_configuration := false, detect := d } input t
      = safeDetect { provider_name := name, check_configuration := false, detect := d' }
          input' t' := by
  refine ⟨rfl, rfl, rfl, rfl⟩

/-- Outcome of TinEye's HTTP interaction inside
`TinEyeProvider.detect`: the post may raise `httpx.TimeoutException`
(caught there), raise any other exception (propagates), or yield a
response with a status code, the JSON `status` string, the optional JSON
`error` field, and the match scores of `results["matches"]`. -/
inductive TinEyeOutcome
  | raiseTimeout
  | raiseOther (msg : String)
  | response (statusCode : Nat) (jsonStatus : String) (jsonError : Option String)
      (matchScores : List ℚ)
deriving DecidableEq, Repr

/-- Embedding of `TinEyeProvider.detect`. The metadata keys it writes (`matches`,
`query_hash`, `total_time`) are not among the keys the aggregator reads,
so the modelled metadata is the all-defaults record. -/
def tineyeDetect (fileType : String) (outcome : TinEyeOutcome) :
    Except String DetectionResult :=
  if ¬ pyStartsWith fileType "image/" then
    .ok (createResult "TinEye" "reverse_search" .error 0 .low 0 0 {}
      (some "TinEye only supports image files"))
  else
    match outcome with
    | .raiseOther msg => .error msg
    | .raiseTimeout =>
        .ok (createResult "TinEye" "reverse_search" .timeout 0 .low 0 0 {}
          (some "TinEye request timed out"))
    | .response statusCode jsonStatus jsonError matchScores =>
        if statusCode ≠ 200 then
          .ok (createResult "TinEye" "reverse_search" .error 0 .low 0 0 {}
            (some ("TinEye API error: " ++ toString statusCode)))
        else if jsonStatus ≠ "ok" then
          .ok (createResult "TinEye" "reverse_search" .error 0 .low 0 0 {}
            (some ("TinEye error: " ++ jsonError.getD "Unknown error")))
        else
          let totalMatches := matchScores.length
          let confidence : ℚ :=
            if totalMatches > 0 then
              (matchScores.take 5).sum / ((matchScores.take 5).length : ℚ) * 100
            else 0
          .ok (createResult "TinEye" "reverse_search" .success confidence
            (determineRiskLevel confidence totalMatches) totalMatches 0 {} none)

/-- Outcome of the AWS calls inside `AWSRekognitionProvider.detect`: a
`ClientError` with its error code (caught), `NoCredentialsError`
(caught), any other exception (propagates), or the two responses'
celebrity list, face count, and unrecognized-face count. -/
inductive AwsOutcome
  | clientError (errorCode : String)
  | noCredentials
  | raiseOther (msg : String)
  | response (celebrities : List Celebrity) (faceCount : Nat) (unrecognizedCount : Nat)
deriving DecidableEq, Repr

/-- Embedding of `AWSRekognitionProvider.detect`. Of its metadata keys the aggregator
reads only `celebrities` (top five matches) and `total_faces`. -/
def awsDetect (fileType : String) (outcome : AwsOutcome) :
    Except String DetectionResult :=
  if ¬ pyStartsWith fileType "image/" then
    .ok (createResult "AWS_Rekognition" "face_detection" .error 0 .low 0 0 {}
      (some "AWS Rekognition only supports image files"))
  else
    match outcome with
    | .raiseOther msg => .error msg
    | .clientError errorCode =>
        if errorCode = "InvalidImageFormatException" then
          .ok (createResult "AWS_Rekognition" "face_detection" .error 0 .low 0 0 {}
            (some "Invalid image format for AWS Rekognition"))
        else if errorCode = "ImageTooLargeException" then
          .ok (createResult "AWS_Rekognition" "face_detection" .error 0 .low 0 0 {}
            (some "Image too large for AWS Rekognition"))
        else
          .ok (createResult "AWS_Rekognition" "face_detection" .error 0 .low 0 0 {}
            (some ("AWS error: " ++ errorCode)))
    | .noCredentials =>
        .ok (createResult "AWS_Rekognition" "face_detection" .error 0 .low 0 0 {}
          (some "AWS credentials not configured"))
    | .response celebrities faceCount _unrecognizedCount =>
        let totalMatches := celebrities.length
        let confidence : ℚ :=
          if celebrities ≠ [] then
            (celebrities.map Celebrity.confidence).sum / (celebrities.length : ℚ)
          else if faceCount > 0 then 60
          else 0
        .ok (createResult "AWS_Rekognition" "face_detection" .success confidence
          (determineRiskLevel confidence totalMatches) totalMatches 0
          { risk_factors := [], celebrities := celebrities.take 5, total_faces := faceCount }
          none)

/-- Outcome of the HTTP interaction inside `GoogleVisionProvider.detect`:
a timeout (caught), any other exception (caught as well — Google Vision
catches bare `Exception`), or a response with its status code, the JSON
`error` message if present, and the annotation counts/flags. -/
inductive GoogleOutcome
  | raiseTimeout
  | raiseOther (msg : String)
  | response (statusCode : Nat) (errorMessage : Option String)
      (faceCount objectCount : Nat) (objectNames : List String) (textFound : Bool)
      (adultLikelihood violenceLikelihood : String)
deriving DecidableEq, Repr

/-- Embedding of `GoogleVisionProvider.detect`. Every exception is caught inside, so
the function is total into `DetectionResult`. Of its metadata keys the
aggregator reads only `risk_factors`. -/
def googleDetect (fileType : String) (outcome : GoogleOutcome) : DetectionResult :=
  if ¬ pyStartsWith fileType "image/" then
    createResult "Google_Vision" "image_analysis" .error 0 .low 0 0 {}
      (some "Google Vision only supports image files")
  else
    match outcome with
    | .raiseTimeout =>
        createResult "Google_Vision" "image_analysis" .timeout 0 .low 0 0 {}
          (some "Google Vision request timed out")
    | .raiseOther msg =>
        createResult "Google_Vision" "image_analysis" .error 0 .low 0 0 {}
          (some ("Google Vision error: " ++ msg))
    | .response statusCode errorMessage faceCount objectCount objectNames textFound
        adultLikelihood violenceLikelihood =>
        if statusCode ≠ 200 then
          createResult "Google_Vision" "image_analysis" .error 0 .low 0 0 {}
            (some ("Google Vision API error: " ++ toString statusCode))
        else match errorMessage with
        | some msg =>
            createResult "Google_Vision" "image_analysis" .error 0 .low 0 0 {}
              (some ("Google Vision error: " ++ msg))
        | none =>
            let c1 : ℚ := if faceCount > 0 then 30 else 0
            let c2 : ℚ := if objectCount > 0 then 20 else 0
            let c3 : ℚ := if textFound then 20 else 0
            let c4 : ℚ :=
              if adultLikelihood = "LIKELY" ∨ adultLikelihood = "VERY_LIKELY" then 40 else 0
            let c5 : ℚ :=
              if violenceLikelihood = "LIKELY" ∨ violenceLikelihood = "VERY_LIKELY" then 30 else 0
            let confidence : ℚ := min (c1 + c2 + c3 + c4 + c5) 100
            let matchesFound := faceCount
            let f1 : List String :=
              if faceCount > 0 then [toString faceCount ++ " human face(s) detected"] else []
            let f2 : List String :=
              if objectCount > 0 then
                ["Objects detected: " ++ String.intercalate ", " (objectNames.take 3)]
              else []
            let f3 : List String := if textFound then ["Text content detected in image"] else []
            let f4 : List String :=
              if adultLikelihood = "LIKELY" ∨ adultLikelihood = "VERY_LIKELY" then
                ["Potentially sensitive content detected"]
              else []
            let f5 : List String :=
              if violenceLikelihood = "LIKELY" ∨ violenceLikelihood = "VERY_LIKELY" then
                ["Violent content detected"]
              else []
            createResult "Google_Vision" "image_analysis" .success confidence
              (determineRiskLevel confidence matchesFound) matchesFound 0
              { risk_factors := f1 ++ f2 ++ f3 ++ f4 ++ f5, celebrities := [], total_faces := 0 }
              none

/-- Embedding of `SensityProvider.detect` (the mock deepfake detector): the random
draws are modelled as parameters `isDeepfake` and `confidenceDraw`. The
metadata keys it writes are not among the keys the aggregator reads. -/
def sensityDetect (fileType : String) (isDeepfake : Bool) (confidenceDraw : ℚ) :
    DetectionResult :=
  if pyStartsWith fileType "image/" then
    let matchesFound := if isDeepfake then 1 else 0
    createResult "Sensity_AI" "deepfake_detection" .success confidenceDraw
      (determineRiskLevel confidenceDraw matchesFound) matchesFound 0 {} none
  else if pyStartsWith fileType "audio/" then
    let matchesFound := if isDeepfake then 1 else 0
    createResult "Sensity_AI" "deepfake_detection" .success confidenceDraw
      (determineRiskLevel confidenceDraw matchesFound) matchesFound 0 {} none
  else
    createResult "Sensity_AI" "deepfake_detection" .error 0 .low 0 0 {}
      (some "Sensity AI supports only image and audio files")

/-- Embedding of `ACRCloudProvider.detect` (the mock audio fingerprinter): the random
draws are modelled as parameters `hasMatch` and `confidenceDraw`. The
metadata keys it writes are not among the keys the aggregator reads. -/
def acrcloudDetect (fileType : String) (hasMatch : Bool) (confidenceDraw : ℚ) :
    DetectionResult :=
  if ¬ pyStartsWith fileType "audio/" then
    createResult "ACRCloud" "audio_fingerprint" .error 0 .low 0 0 {}
      (some "ACRCloud only supports audio files")
  else
    let matchesFound := if hasMatch then 1 else 0
    createResult "ACRCloud" "audio_fingerprint" .success confidenceDraw
      (determineRiskLevel confidenceDraw matchesFound) matchesFound 0 {} none

/-- The invariant claimed for non-success reports: zero confidence and
zero matches. -/
def zeroOnFailure (r : DetectionResult) : Prop :=
  r.status ≠ .success → r.confidence = 0 ∧ r.matches_found = 0

/-- CLAIM C6: every report built by any of the five providers' `detect`
bodies or by the `safe_detect` wrapper with a status other than `success`
carries confidence 0 and match count 0. -/
theorem non_success_reports_have_zero_evidence :
    (∀ fileType outcome r, tineyeDetect fileType outcome = .ok r → zeroOnFailure r) ∧
    (∀ fileType outcome r, awsDetect fileType outcome = .ok r → zeroOnFailure r) ∧
    (∀ fileType outcome, zeroOnFailure (googleDetect fileType outcome)) ∧
    (∀ fileType isDeepfake confidenceDraw,
      zeroOnFailure (sensityDetect fileType isDeepfake confidenceDraw)) ∧
    (∀ fileType hasMatch confidenceDraw,
      zeroOnFailure (acrcloudDetect fileType hasMatch confidenceDraw)) ∧
    (∀ p input t, (∀ i r, p.detect i = .ok r → zeroOnFailure r) →
      zeroOnFailure (safeDetect p input t)) := by
  refine ⟨?_, ?_, ?_, ?_, ?_, ?_⟩
  · intro fileType outcome r h
    cases outcome
    all_goals simp only [tineyeDetect] at h
    all_goals split_ifs at h
    all_goals try cases h
    all_goals intro hs
    all_goals first
    | exact ⟨rfl, rfl⟩
    | exact (hs rfl).elim
  · intro fileType outcome r h
    cases outcome
    all_goals simp only [awsDetect] at h
    all_goals split_ifs at h
    all_goals try cases h
    all_goals intro hs
    all_goals first
    | exact ⟨rfl, rfl⟩
    | exact (hs rfl).elim
  · intro fileType outcome
    cases outcome with
    | raiseTimeout =>
      simp only [googleDetect]
      split_ifs
      all_goals exact fun _ => ⟨rfl, rfl⟩
    | raiseOther msg =>
      simp only [googleDetect]
      split_ifs
      all_goals exact fun _ => ⟨rfl, rfl⟩
    | response statusCode errorMessage faceCount objectCount objectNames textFound a v =>
      cases errorMessage
      all_goals simp only [googleDetect]
      all_goals split_ifs
      all_goals intro hs
      all_goals first
      | exact ⟨rfl, rfl⟩
      | exact (hs rfl).elim
  · intro fileType isDeepfake confidenceDraw
    simp only [sensityDetect]
    split_ifs
    all_goals intro hs
    all_goals first
    | exact ⟨rfl, rfl⟩
    | exact (hs rfl).elim
  · intro fileType hasMatch confidenceDraw
    simp only [acrcloudDetect]
    split_ifs
    all_goals intro hs
    all_goals first
    | exact ⟨rfl, rfl⟩
    | exact (hs rfl).elim
  · intro p input t hdet
    unfold safeDetect
    split_ifs
    · exact fun _ => ⟨rfl, rfl⟩
    · cases hd : p.detect input with
      | ok r =>
        intro hs
        have hr := hdet input r hd
        simp only [hd] at hs ⊢
        exact hr hs
      | error e =>
        simp only [hd]
        exact fun _ => ⟨rfl, rfl⟩

/-- Witness for C6 at a concrete input: TinEye on a non-image file
returns an `error` report with confidence 0 and zero matches, and the
wrapper preserves the invariant for a concrete erroring provider. -/
theorem non_success_reports_have_zero_evidence_witness :
    ((createResult "TinEye" "reverse_search" .error 0 .low 0 0 {}
        (some "TinEye only supports image files")).confidence = 0 ∧
      (createResult "TinEye" "reverse_search" .error 0 .low 0 0 {}
        (some "TinEye only supports image files")).matches_found = 0) ∧
    ((safeDetect
        { provider_name := "TinEye", check_configuration := true,
          detect := fun _ => .error "boom" }
        { file_content := [], file_type := "text/plain", filename := "a.txt" }
        3).confidence = 0 ∧
      (safeDetect
        { provider_name := "TinEye", check_configuration := true,
          detect := fun _ => .error "boom" }
        { file_content := [], file_type := "text/plain", filename := "a.txt" }
        3).matches_found = 0) :=
  ⟨non_success_reports_have_zero_evidence.1 "text/plain" TinEyeOutcome.raiseTimeout
      (createResult "TinEye" "reverse_search" .error 0 .low 0 0 {}
        (some "TinEye only supports image files"))
      (by rfl) (by decide),
    (non_success_reports_have_zero_evidence.2.2.2.2.2
      { provider_name := "TinEye", check_configuration := true,
        detect := fun _ => .error "boom" }
      { file_content := [], file_type := "text/plain", filename := "a.txt" }
      3 (fun i r h => by cases h)) (by decide)⟩

/-- The provider registration order of `DetectionAggregator.__init__`,
with each provider's `provider_name` as set in its `__init__`. -/
def registeredProviderNames : List String :=
  ["Google_Vision", "AWS_Rekognition", "TinEye", "Sensity_AI", "ACRCloud"]

/-- The four capability tags exposed as convenience lookups on
`UnifiedAnalysisResult`. -/
def capabilityTags : List String :=
  ["reverse_search", "face_detection", "deepfake_detection", "audio_fingerprint"]

/-- The `next((r for r in self.results if r.capability == tag), None)`
lookup shared by the four convenience properties of
`UnifiedAnalysisResult`. -/
def findByCapability (tag : String) (results : List DetectionResult) :
    Option DetectionResult :=
  results.find? (fun r => r.capability = tag)

/-- CLAIM C10: wrapper-built reports (the `not_configured` short-circuit
and the exception conversion) carry the lowercased provider name as their
`capability`; for every registered provider that name differs from all
four capability tags, so the convenience lookups never return a
wrapper-built report. -/
theorem wrapper_reports_use_provider_capability (name : String)
    (hmem : name ∈ registeredProviderNames)
    (d : DetectInput → Except String DetectionResult)
    (input : DetectInput) (t : Nat) (e : String) :
    (safeDetect { provider_name := name, check_configuration := false, detect := d }
        input t).capability = pyLower name ∧
    (d input = .error e →
      (safeDetect { provider_name := name, check_configuration := true, detect := d }
          input t).capability = pyLower name) ∧
    (∀ tag ∈ capabilityTags, pyLower name ≠ tag) ∧
    (∀ tag ∈ capabilityTags, ∀ results r, findByCapability tag results = some r →
        r.capability ≠ pyLower name) := by
  have htags : ∀ tag ∈ capabilityTags, pyLower name ≠ tag := by
    fin_cases hmem <;> decide
  refine ⟨rfl, ?_, htags, ?_⟩
  · intro hd
    unfold safeDetect
    simp [hd, createResult]
  · intro tag htag results r hfind
    have hp : r.capability = tag := by
      simpa using List.find?_some hfind
    rw [hp]
    exact fun hEq => htags tag htag hEq.symm

/-- Witness for C10 at a concrete input: the AWS Rekognition wrapper
reports carry capability "aws_rekognition", which is none of the four
lookup tags. -/
theorem wrapper_reports_use_provider_capability_witness :
    (safeDetect
        { provider_name := "AWS_Rekognition", check_configuration := false,
          detect := fun _ => .error "x" }
        { file_content := [], file_type := "image/png", filename := "a.png" }
        0).capability = pyLower "AWS_Rekognition" ∧
    ((fun _ : DetectInput => (Except.error "x" : Except String DetectionResult))
        { file_content := [], file_type := "image/png", filename := "a.png" } = .error "x" →
      (safeDetect
          { provider_name := "AWS_Rekognition", check_configuration := true,
            detect := fun _ => .error "x" }
          { file_content := [], file_type := "image/png", filename := "a.png" }
          0).capability = pyLower "AWS_Rekognition") ∧
    (∀ tag ∈ capabilityTags, pyLower "AWS_Rekognition" ≠ tag) ∧
    (∀ tag ∈ capabilityTags, ∀ results r, findByCapability tag results = some r →
        r.capability ≠ pyLower "AWS_Rekognition") :=
  wrapper_reports_use_provider_capability "AWS_Rekognition" (by decide) _ _ 0 "x"

/-- Formats a rational to one decimal place, modelling the `:.1f`
conversion used in the celebrity factor string (the exact rounding mode
is immaterial to the claims). -/
def formatOneDecimal (q : ℚ) : String :=
  let n : ℤ := ⌊q * 10 + 1 / 2⌋
  toString (n / 10) ++ "." ++ toString (n % 10)

/-- The per-celebrity factor string built by
`DetectionAggregator._generate_risk_factors`. -/
def celebrityFactor (c : Celebrity) : String :=
  "🎯 Celebrity detected: " ++ c.name ++ " (" ++ formatOneDecimal c.confidence
    ++ "% confidence)"

/-- The face-count factor string built by `_generate_risk_factors`. -/
def faceCountFactor (n : Nat) : String :=
  "👤 " ++ toString n ++ " human face(s) detected"

/-- The default factor appended by `_generate_risk_factors` when no other
factor was produced. -/
def defaultRiskFactor : String :=
  "Content analyzed - standard digital media detected"

/-- The factors contributed by one report in the loop of
`DetectionAggregator._generate_risk_factors`: the loop body runs only
for `status=success` reports with `matches_found > 0`, passes Google
Vision's `risk_factors` metadata through for `image_analysis`, and for
`face_detection` emits one factor per celebrity, or a face-count factor
when no celebrity is listed but faces were counted. -/
def factorsForResult (r : DetectionResult) : List String :=
  if r.status = .success ∧ r.matches_found > 0 then
    if r.capability = "image_analysis" then r.metadata.risk_factors
    else if r.capability = "face_detection" then
      if r.metadata.celebrities ≠ [] then r.metadata.celebrities.map celebrityFactor
      else if r.metadata.total_faces > 0 then [faceCountFactor r.metadata.total_faces]
      else []
    else []
  else []

/-- Embedding of `DetectionAggregator._generate_risk_factors`: the concatenation of
the per-report contributions, replaced by the single default factor when
empty. -/
def generateRiskFactors (results : List DetectionResult) : List String :=
  let factors := (results.map factorsForResult).flatten
  if factors = [] then [defaultRiskFactor] else factors

/-- Counterexample to C7 as stated: AWS Rekognition on an image with
three faces and no celebrity match returns a successful `face_detection`
report (confidence 60, zero matches), yet the risk-factor generator
emits no face-count factor for it — only the default filler — because
its loop body is gated on `matches_found > 0`. -/
theorem face_count_factor_not_emitted :
    awsDetect "image/jpeg" (AwsOutcome.response [] 3 0) =
      Except.ok (createResult "AWS_Rekognition" "face_detection" .success 60 .low 0 0
        { risk_factors := [], celebrities := [], total_faces := 3 } none) ∧
    generateRiskFactors
      [createResult "AWS_Rekognition" "face_detection" .success 60 .low 0 0
        { risk_factors := [], celebrities := [], total_faces := 3 } none]
      = [defaultRiskFactor] ∧
    faceCountFactor 3 ∉
      generateRiskFactors
        [createResult "AWS_Rekognition" "face_detection" .success 60 .low 0 0
          { risk_factors := [], celebrities := [], total_faces := 3 } none] := by
  refine ⟨by rfl, by rfl, ?_⟩
  intro hmem
  rw [show generateRiskFactors
      [createResult "AWS_Rekognition" "face_detection" .success 60 .low 0 0
        { risk_factors := [], celebrities := [], total_faces := 3 } none]
      = [defaultRiskFactor] from rfl] at hmem
  exact absurd (List.mem_singleton.mp hmem) (by decide)

/-- CLAIM C7 as amended: for a successful `face_detection` report with
`matches_found > 0`, the generator emits one factor per listed celebrity
when celebrities are present, and a face-count factor when none are
listed but faces were counted; reports with `matches_found = 0` emit no
factor even when faces are present. -/
theorem face_detection_factors (r : DetectionResult)
    (hstat : r.status = .success) (hcap : r.capability = "face_detection") :
    (r.matches_found > 0 → r.metadata.celebrities ≠ [] →
      factorsForResult r = r.metadata.celebrities.map celebrityFactor) ∧
    (r.matches_found > 0 → r.metadata.celebrities = [] → r.metadata.total_faces > 0 →
      factorsForResult r = [faceCountFactor r.metadata.total_faces]) ∧
    (r.matches_found = 0 → factorsForResult r = []) := by
  have hni : r.capability = "image_analysis" → False := by
    rw [hcap]
    decide
  refine ⟨?_, ?_, ?_⟩
  · intro hm hc
    simp [factorsForResult, hstat, hcap, hm, hc, hni]
  · intro hm hc hf
    simp [factorsForResult, hstat, hcap, hm, hc, hf, hni]
  · intro hm
    simp [factorsForResult, hm]

/-- A concrete successful `face_detection` report with one celebrity
match, as AWS Rekognition would produce it. -/
def sampleCelebrityReport : DetectionResult :=
  createResult "AWS_Rekognition" "face_detection" .success 99 .medium 1 0
    { risk_factors := [], celebrities := [Celebrity.mk "Famous Person" 99],
      total_faces := 1 } none

/-- Witness for the amended C7 at a concrete input: one listed celebrity
with one match yields exactly the per-celebrity factor. -/
theorem face_detection_factors_witness :
    (sampleCelebrityReport.matches_found > 0 →
      sampleCelebrityReport.metadata.celebrities ≠ [] →
      factorsForResult sampleCelebrityReport
        = sampleCelebrityReport.metadata.celebrities.map celebrityFactor) ∧
    (sampleCelebrityReport.matches_found > 0 →
      sampleCelebrityReport.metadata.celebrities = [] →
      sampleCelebrityReport.metadata.total_faces > 0 →
      factorsForResult sampleCelebrityReport
        = [faceCountFactor sampleCelebrityReport.metadata.total_faces]) ∧
    (sampleCelebrityReport.matches_found = 0 →
      factorsForResult sampleCelebrityReport = []) :=
  face_detection_factors sampleCelebrityReport rfl rfl

/-- Counterexample to C8 as stated: a successful `image_analysis` report
whose passed-through metadata factor is textually the default string
makes the generated list equal the default singleton even though a
report did produce a capability-specific factor, refuting the
"if and only if" direction of the claim. -/
theorem default_factor_collision :
    generateRiskFactors
      [createResult "Google_Vision" "image_analysis" .success 50 .medium 1 0
        { risk_factors := [defaultRiskFactor], celebrities := [], total_faces := 0 } none]
      = [defaultRiskFactor] ∧
    factorsForResult
      (createResult "Google_Vision" "image_analysis" .success 50 .medium 1 0
        { risk_factors := [defaultRiskFactor], celebrities := [], total_faces := 0 } none)
      ≠ [] := by
  exact ⟨rfl, by decide⟩

/-- CLAIM C8 as amended: the generated risk-factor list is never empty,
and it equals exactly the default singleton iff the capability-specific
factors produced by the reports are either none at all or exactly the
default text itself. -/
theorem risk_factors_never_empty (results : List DetectionResult) :
    generateRiskFactors results ≠ [] ∧
    (generateRiskFactors results = [defaultRiskFactor] ↔
      (results.map factorsForResult).flatten = [] ∨
      (results.map factorsForResult).flatten = [defaultRiskFactor]) := by
  unfold generateRiskFactors
  rcases eq_or_ne (results.map factorsForResult).flatten [] with hf | hf
  · rw [if_pos hf]
    exact ⟨by simp, by simp [hf]⟩
  · rw [if_neg hf]
    refine ⟨hf, ?_⟩
    constructor
    · intro h
      exact Or.inr h
    · intro h
      rcases h with h | h
      · exact absurd h hf
      · exact h

/-- Witness for the amended C8 at a concrete input: the empty report list
yields the default singleton, which is non-empty. -/
theorem risk_factors_never_empty_witness :
    generateRiskFactors [] ≠ [] ∧
    (generateRiskFactors [] = [defaultRiskFactor] ↔
      (([] : List DetectionResult).map factorsForResult).flatten = [] ∨
      (([] : List DetectionResult).map factorsForResult).flatten = [defaultRiskFactor]) :=
  risk_factors_never_empty []

end CaraDemo
